import Mathlib

/-!
Shallow embedding of the photo-gallery application in
src/photo-gallery-app/App.tsx.

The React component state (lines 19-29) becomes the structure AppState.
Each handler (loadInitialAssets, loadMoreAssets, refreshAssets,
openCamera, onSelectAsset, onShareSelected, onDeleteSelected, and the
inline viewer/camera handlers) becomes a function from the platform
responses it consumes and the current state to the next state together
with the list of external effects it performs (device-API calls and
alerts).  Fallible platform calls are passed in as Except values, so a
single function application models one complete run of the handler.
-/

/-- Screen discriminator, line 16 of App.tsx:
type ScreenName = gallery | camera | viewer. -/
inductive ScreenName where
  | gallery
  | camera
  | viewer
deriving DecidableEq, Repr

/-- A MediaLibrary.Asset as the application uses it: only id (line 134,
key extraction line 188) and uri (lines 124, 197, 254) are read. -/
structure Asset where
  id : String
  uri : String
deriving DecidableEq, Repr

/-- Result of MediaLibrary.getAssetsAsync as consumed on lines 54-56 and
74-76: the page of assets, endCursor (null-coalesced to an Option) and
hasNextPage. -/
structure PageResult where
  assets : List Asset
  endCursor : Option String
  hasNextPage : Bool
deriving DecidableEq, Repr

/-- The component state hooks of App, lines 22-29. -/
structure AppState where
  assets : List Asset
  endCursor : Option String
  hasNextPage : Bool
  isLoadingAssets : Bool
  screen : ScreenName
  selectedAsset : Option Asset
deriving DecidableEq, Repr

/-- External effects a handler performs: device-API invocations and
user-visible alerts. -/
inductive Effect where
  | getAssets (after : Option String)
  | deleteAssets (ids : List String)
  | shareAvailable
  | shareAsync (uri : String)
  | requestCameraPermission
  | alert (title message : String)
deriving DecidableEq, Repr

/-- Initial hook values, lines 22-29: empty list, null cursor,
hasNextPage true, not loading, gallery screen, no selection. -/
def initialState : AppState :=
  { assets := []
    endCursor := none
    hasNextPage := true
    isLoadingAssets := false
    screen := ScreenName.gallery
    selectedAsset := none }

/-- setIsLoadingAssets(true), line 46 and line 66. -/
def beginLoading (s : AppState) : AppState :=
  { s with isLoadingAssets := true }

/-- The continuation of loadInitialAssets after getAssetsAsync resolves
successfully, lines 54-56, plus the finally block line 60:
setAssets(result.assets); setEndCursor(result.endCursor ?? null);
setHasNextPage(result.hasNextPage); setIsLoadingAssets(false).
The response is applied unconditionally: nothing compares the response
against the state it is applied to. -/
def applyLoadInitialResponse (r : PageResult) (s : AppState) : AppState :=
  { s with assets := r.assets
           endCursor := r.endCursor
           hasNextPage := r.hasNextPage
           isLoadingAssets := false }

/-- loadInitialAssets, lines 45-62: set the in-flight flag, call
getAssetsAsync (no after cursor), on success replace list, cursor and
has-more, on failure alert; the finally block clears the in-flight
flag either way. -/
def loadInitialAssets (resp : Except Unit PageResult) (s : AppState) :
    AppState × List Effect :=
  match resp with
  | Except.ok r =>
      (applyLoadInitialResponse r (beginLoading s), [Effect.getAssets none])
  | Except.error _ =>
      ({ beginLoading s with isLoadingAssets := false },
       [Effect.getAssets none, Effect.alert "Error" "Failed to load photos."])

/-- loadMoreAssets, lines 64-82: return immediately when hasNextPage is
false or a load is in flight (line 65); otherwise call getAssetsAsync
with the stored cursor, append the returned assets, and update cursor
and has-more; on failure alert; finally clear the in-flight flag. -/
def loadMoreAssets (resp : Except Unit PageResult) (s : AppState) :
    AppState × List Effect :=
  if !s.hasNextPage || s.isLoadingAssets then (s, [])
  else
    match resp with
    | Except.ok r =>
        ({ s with assets := s.assets ++ r.assets
                  endCursor := r.endCursor
                  hasNextPage := r.hasNextPage
                  isLoadingAssets := false },
         [Effect.getAssets s.endCursor])
    | Except.error _ =>
        ({ s with isLoadingAssets := false },
         [Effect.getAssets s.endCursor,
          Effect.alert "Error" "Failed to load more photos."])

/-- setEndCursor(null); setHasNextPage(true), lines 85-86. -/
def resetPagination (s : AppState) : AppState :=
  { s with endCursor := none, hasNextPage := true }

/-- refreshAssets, lines 84-88: reset cursor and has-more, then await
loadInitialAssets(). -/
def refreshAssets (resp : Except Unit PageResult) (s : AppState) :
    AppState × List Effect :=
  loadInitialAssets resp (resetPagination s)

/-- openCamera, lines 96-109.  isWeb models the react-native web-platform check;
granted models cameraPermission?.granted; reqGranted models the result
of requestCameraPermission(). -/
def openCamera (isWeb granted reqGranted : Bool) (s : AppState) :
    AppState × List Effect :=
  if isWeb then
    (s, [Effect.alert "Not supported" "Camera is not supported on web in this demo."])
  else if !granted then
    if !reqGranted then
      (s, [Effect.requestCameraPermission,
           Effect.alert "Permission required" "Camera access is needed to take photos."])
    else
      ({ s with screen := ScreenName.camera }, [Effect.requestCameraPermission])
  else
    ({ s with screen := ScreenName.camera }, [])

/-- onSelectAsset, lines 111-114: setSelectedAsset(asset);
setScreen(viewer) in one synchronous handler. -/
def onSelectAsset (a : Asset) (s : AppState) : AppState × List Effect :=
  ({ s with selectedAsset := some a, screen := ScreenName.viewer }, [])

/-- onShareSelected, lines 116-128: return immediately when no asset is
selected; otherwise query share availability, alert if unavailable,
else share the asset uri; any thrown failure is caught and alerted. -/
def onShareSelected (avail : Except Unit Bool) (shareResp : Except Unit Unit)
    (s : AppState) : AppState × List Effect :=
  match s.selectedAsset with
  | none => (s, [])
  | some a =>
      match avail with
      | Except.error _ =>
          (s, [Effect.shareAvailable,
               Effect.alert "Share failed" "Unable to share this photo."])
      | Except.ok false =>
          (s, [Effect.shareAvailable,
               Effect.alert "Unavailable" "Sharing is not available on this platform."])
      | Except.ok true =>
          match shareResp with
          | Except.ok _ => (s, [Effect.shareAvailable, Effect.shareAsync a.uri])
          | Except.error _ =>
              (s, [Effect.shareAvailable, Effect.shareAsync a.uri,
                   Effect.alert "Share failed" "Unable to share this photo."])

/-- onDeleteSelected, lines 130-140: return immediately when no asset is
selected; otherwise delete by id on the platform, and on success drop
the matching entries from the list, clear the selection and go back to
the gallery; on failure alert and change nothing. -/
def onDeleteSelected (delResp : Except Unit Unit) (s : AppState) :
    AppState × List Effect :=
  match s.selectedAsset with
  | none => (s, [])
  | some a =>
      match delResp with
      | Except.ok _ =>
          ({ s with assets := s.assets.filter (fun x => x.id != a.id)
                    selectedAsset := none
                    screen := ScreenName.gallery },
           [Effect.deleteAssets [a.id]])
      | Except.error _ =>
          (s, [Effect.deleteAssets [a.id],
               Effect.alert "Delete failed" "Unable to delete this photo."])

/-- The viewer Back button handler, lines 234-237:
setSelectedAsset(null) then setScreen(gallery). -/
def viewerBack (s : AppState) : AppState × List Effect :=
  ({ s with selectedAsset := none, screen := ScreenName.gallery }, [])

/-- The camera onClose callback, line 222: setScreen(gallery). -/
def cameraClose (s : AppState) : AppState × List Effect :=
  ({ s with screen := ScreenName.gallery }, [])

/-- The camera onShotSaved callback, lines 223-226:
await refreshAssets(); setScreen(gallery). -/
def shotSaved (resp : Except Unit PageResult) (s : AppState) :
    AppState × List Effect :=
  let r := refreshAssets resp s
  ({ r.1 with screen := ScreenName.gallery }, r.2)

/-- The render guard for the viewer, line 230:
the viewer block renders only when screen equals viewer and
selectedAsset is non-null. -/
def viewerVisible (s : AppState) : Bool :=
  s.screen == ScreenName.viewer && s.selectedAsset.isSome

/-- One user- or callback-driven event of the application, carrying the
platform responses its handler consumes. -/
inductive Event where
  | loadInitial (resp : Except Unit PageResult)
  | loadMore (resp : Except Unit PageResult)
  | refresh (resp : Except Unit PageResult)
  | openCam (isWeb granted reqGranted : Bool)
  | select (a : Asset)
  | share (avail : Except Unit Bool) (shareResp : Except Unit Unit)
  | deleteSel (resp : Except Unit Unit)
  | back
  | closeCam
  | saved (resp : Except Unit PageResult)

/-- Dispatch one event to its handler. -/
def step (a : Event) (s : AppState) : AppState × List Effect :=
  match a with
  | Event.loadInitial resp => loadInitialAssets resp s
  | Event.loadMore resp => loadMoreAssets resp s
  | Event.refresh resp => refreshAssets resp s
  | Event.openCam isWeb granted reqGranted => openCamera isWeb granted reqGranted s
  | Event.select a => onSelectAsset a s
  | Event.share avail shareResp => onShareSelected avail shareResp s
  | Event.deleteSel resp => onDeleteSelected resp s
  | Event.back => viewerBack s
  | Event.closeCam => cameraClose s
  | Event.saved resp => shotSaved resp s

/-- States reachable from the initial hook values by any sequence of
events with any platform responses. -/
inductive Reachable : AppState → Prop where
  | init : Reachable initialState
  | next (s : AppState) (a : Event) : Reachable s → Reachable (step a s).1

/-- A concrete asset used in the test fixtures below. -/
def mkAsset (i : String) : Asset :=
  { id := i, uri := String.append "file-" i }

/-- The first page of the spec scenario: ids 1, 2, 3, cursor c1,
hasMore true. -/
def page123 : PageResult :=
  { assets := [mkAsset "1", mkAsset "2", mkAsset "3"]
    endCursor := some "c1"
    hasNextPage := true }

/-- The second page of the spec scenario: ids 4, 5, cursor c2,
hasMore false. -/
def page45 : PageResult :=
  { assets := [mkAsset "4", mkAsset "5"]
    endCursor := some "c2"
    hasNextPage := false }

/-- State after a successful initial load of page123. -/
def afterInitial : AppState :=
  (loadInitialAssets (Except.ok page123) initialState).1

/-- True when the handler raised at least one user-visible alert. -/
def containsAlert (effs : List Effect) : Bool :=
  effs.any fun e =>
    match e with
    | Effect.alert _ _ => true
    | _ => false

/-- The five state fields the spec names when it requires that a failed
device call leave state unmodified: asset list, cursor, has-more,
Selection and Screen. -/
def coreUnchanged (s t : AppState) : Prop :=
  t.assets = s.assets ∧ t.endCursor = s.endCursor ∧
  t.hasNextPage = s.hasNextPage ∧ t.selectedAsset = s.selectedAsset ∧
  t.screen = s.screen

lemma loadMore_guard (resp : Except Unit PageResult) (s : AppState)
    (h : (!s.hasNextPage || s.isLoadingAssets) = true) :
    loadMoreAssets resp s = (s, []) := by
  unfold loadMoreAssets
  simp [h]

/-- C2: when has-more is false or a load is already in flight, loadMore
returns immediately with no platform request and no state change, for
any would-be response; consequently any sequence of loadMore calls in a
has-more=false state leaves the state unchanged. -/
theorem loadMore_blocked_is_noop :
    (∀ (s : AppState) (resp : Except Unit PageResult),
        s.hasNextPage = false ∨ s.isLoadingAssets = true →
        loadMoreAssets resp s = (s, [])) ∧
    (∀ (s : AppState) (resps : List (Except Unit PageResult)),
        s.hasNextPage = false →
        resps.foldl (fun t r => (loadMoreAssets r t).1) s = s) := by
  have base : ∀ (s : AppState) (resp : Except Unit PageResult),
      s.hasNextPage = false ∨ s.isLoadingAssets = true →
      loadMoreAssets resp s = (s, []) := by
    intro s resp h
    apply loadMore_guard
    rcases h with h | h <;> simp [h]
  refine ⟨base, ?_⟩
  intro s resps h
  induction resps with
  | nil => rfl
  | cons r rs ih =>
      rw [List.foldl_cons, base s r (Or.inl h)]
      exact ih

/-- Witness for C2 at a concrete exhausted state. -/
theorem loadMore_blocked_is_noop_w :
    loadMoreAssets (Except.ok page45)
        { initialState with hasNextPage := false } =
      ({ initialState with hasNextPage := false }, []) ∧
    [Except.ok page45, Except.error ()].foldl
        (fun t r => (loadMoreAssets r t).1)
        { initialState with hasNextPage := false } =
      { initialState with hasNextPage := false } :=
  ⟨loadMore_blocked_is_noop.1 _ _ (Or.inl rfl),
   loadMore_blocked_is_noop.2 _ _ rfl⟩

/-- C3: an unblocked loadMore with a successful response appends the
page assets at the end of the list in order and overwrites cursor and
has-more with the page values; concretely, loading page123 initially
and then page45 by loadMore yields the list 1,2,3,4,5 with has-more
false, after which loadMore is a no-op. -/
theorem loadMore_appends_in_order :
    (∀ (s : AppState) (r : PageResult),
        s.hasNextPage = true → s.isLoadingAssets = false →
        loadMoreAssets (Except.ok r) s =
          ({ s with assets := s.assets ++ r.assets
                    endCursor := r.endCursor
                    hasNextPage := r.hasNextPage
                    isLoadingAssets := false },
           [Effect.getAssets s.endCursor])) ∧
    (afterInitial.assets = [mkAsset "1", mkAsset "2", mkAsset "3"] ∧
     (loadMoreAssets (Except.ok page45) afterInitial).1.assets =
       [mkAsset "1", mkAsset "2", mkAsset "3", mkAsset "4", mkAsset "5"] ∧
     (loadMoreAssets (Except.ok page45) afterInitial).1.hasNextPage = false ∧
     ∀ resp, loadMoreAssets resp
         (loadMoreAssets (Except.ok page45) afterInitial).1 =
       ((loadMoreAssets (Except.ok page45) afterInitial).1, [])) := by
  constructor
  · intro s r h1 h2
    unfold loadMoreAssets
    simp [h1, h2]
  · refine ⟨rfl, rfl, rfl, ?_⟩
    intro resp
    exact loadMore_guard resp _ rfl

/-- Witness for C3 applying the general append property at the state
reached by the scenario initial load. -/
theorem loadMore_appends_in_order_w :
    loadMoreAssets (Except.ok page45) afterInitial =
      ({ afterInitial with
           assets := afterInitial.assets ++ page45.assets
           endCursor := page45.endCursor
           hasNextPage := page45.hasNextPage
           isLoadingAssets := false },
       [Effect.getAssets afterInitial.endCursor]) :=
  loadMore_appends_in_order.1 afterInitial page45 rfl rfl

/-- C4: refreshAssets is exactly a pagination reset followed by
loadInitialAssets, and on success the resulting list is exactly the
fresh page (full replacement, never a concatenation), with cursor and
has-more taken from that page. -/
theorem refresh_replaces_list :
    (∀ (resp : Except Unit PageResult) (s : AppState),
        refreshAssets resp s = loadInitialAssets resp (resetPagination s)) ∧
    (∀ (s : AppState) (r : PageResult),
        refreshAssets (Except.ok r) s =
          ({ s with assets := r.assets
                    endCursor := r.endCursor
                    hasNextPage := r.hasNextPage
                    isLoadingAssets := false },
           [Effect.getAssets none])) :=
  ⟨fun _ _ => rfl, fun _ _ => rfl⟩

lemma countP_one_decomp (l : List Asset) (i : String)
    (h : l.countP (fun x => x.id == i) = 1) :
    ∃ l1 x l2, l = l1 ++ x :: l2 ∧ x.id = i ∧
      (∀ y ∈ l1 ++ l2, y.id ≠ i) ∧
      l.filter (fun x => x.id != i) = l1 ++ l2 := by
  induction l with
  | nil => simp at h
  | cons a l ih =>
      rw [List.countP_cons] at h
      by_cases pa : a.id = i
      · rw [if_pos (show ((fun x => x.id == i) a) = true by simp [pa])] at h
        have hl : l.countP (fun x => x.id == i) = 0 := by omega
        have hall : ∀ y ∈ l, ¬((fun x => x.id == i) y = true) :=
          List.countP_eq_zero.mp hl
        refine ⟨[], a, l, by simp, pa, ?_, ?_⟩
        · intro y hy
          have := hall y (by simpa using hy)
          simpa using this
        · simp [List.filter_cons, pa]
          intro y hy
          have := hall y hy
          simpa using this
      · rw [if_neg (show ¬(((fun x => x.id == i) a) = true) by simp [pa])] at h
        have hl : l.countP (fun x => x.id == i) = 1 := by omega
        obtain ⟨l1, x, l2, hdec, hx, hrest, hfil⟩ := ih hl
        refine ⟨a :: l1, x, l2, by simp [hdec], hx, ?_, ?_⟩
        · intro y hy
          rcases (by simpa using hy : y = a ∨ y ∈ l1 ++ l2) with h1 | h1
          · simpa [h1] using pa
          · exact hrest y h1
        · simp [List.filter_cons, pa, hfil]

/-- C5: when the selected asset id occurs exactly once in the list, a
successful delete removes exactly that one entry, clears the selection
and forces the transition back to the gallery screen. -/
theorem deleteSelected_removes_exactly_one :
    ∀ (s : AppState) (a : Asset),
      s.selectedAsset = some a →
      s.assets.countP (fun x => x.id == a.id) = 1 →
      ∃ l1 x l2,
        s.assets = l1 ++ x :: l2 ∧ x.id = a.id ∧
        (∀ y ∈ l1 ++ l2, y.id ≠ a.id) ∧
        onDeleteSelected (Except.ok ()) s =
          ({ s with assets := l1 ++ l2
                    selectedAsset := none
                    screen := ScreenName.gallery },
           [Effect.deleteAssets [a.id]]) ∧
        (onDeleteSelected (Except.ok ()) s).1.assets.length + 1 =
          s.assets.length := by
  intro s a hsel hcount
  obtain ⟨l1, x, l2, hdec, hx, hrest, hfil⟩ :=
    countP_one_decomp s.assets a.id hcount
  have hdel : onDeleteSelected (Except.ok ()) s =
      ({ s with assets := l1 ++ l2
                selectedAsset := none
                screen := ScreenName.gallery },
       [Effect.deleteAssets [a.id]]) := by
    unfold onDeleteSelected
    rw [hsel]
    simp [hfil]
  refine ⟨l1, x, l2, hdec, hx, hrest, hdel, ?_⟩
  rw [hdel, hdec]
  simp
  omega

/-- State after selecting the asset with id 3 from the loaded list. -/
def viewer3 : AppState := (onSelectAsset (mkAsset "3") afterInitial).1

/-- Witness for C5 deleting id 3 out of the list 1,2,3. -/
theorem deleteSelected_removes_exactly_one_w :
    ∃ l1 x l2,
      viewer3.assets = l1 ++ x :: l2 ∧ x.id = (mkAsset "3").id ∧
      (∀ y ∈ l1 ++ l2, y.id ≠ (mkAsset "3").id) ∧
      onDeleteSelected (Except.ok ()) viewer3 =
        ({ viewer3 with assets := l1 ++ l2
                        selectedAsset := none
                        screen := ScreenName.gallery },
         [Effect.deleteAssets [(mkAsset "3").id]]) ∧
      (onDeleteSelected (Except.ok ()) viewer3).1.assets.length + 1 =
        viewer3.assets.length :=
  deleteSelected_removes_exactly_one viewer3 (mkAsset "3") rfl (by decide)

/-- A state with a stored cursor and exhausted pagination, used to show
what a failing refresh does to it. -/
def c6State : AppState :=
  { assets := [mkAsset "1"]
    endCursor := some "c1"
    hasNextPage := false
    isLoadingAssets := false
    screen := ScreenName.gallery
    selectedAsset := none }

/-- C6 counterexample: when the platform call inside refreshAssets
fails, the cursor and has-more flag have still been mutated, because
lines 85-86 reset them before the fallible loadInitialAssets call; so
a failing device call does not leave the state unmodified. -/
theorem refresh_failure_mutates_pagination :
    (refreshAssets (Except.error ()) c6State).1.endCursor ≠ c6State.endCursor ∧
    (refreshAssets (Except.error ()) c6State).1.hasNextPage ≠ c6State.hasNextPage := by
  decide

/-- C6 amended: failures of loadInitial, loadMore, deleteSelected and
shareSelected are caught, raise an alert and leave the asset list,
cursor, has-more, Selection and Screen unmodified; a failure inside
refresh is caught and raises an alert with the asset list, Selection
and Screen unmodified, but the cursor and has-more resets performed
before the platform call persist (cursor absent, has-more true). -/
theorem deviceApi_failure_policy :
    (∀ s : AppState,
        coreUnchanged s (loadInitialAssets (Except.error ()) s).1 ∧
        containsAlert (loadInitialAssets (Except.error ()) s).2 = true) ∧
    (∀ s : AppState, s.hasNextPage = true → s.isLoadingAssets = false →
        coreUnchanged s (loadMoreAssets (Except.error ()) s).1 ∧
        containsAlert (loadMoreAssets (Except.error ()) s).2 = true) ∧
    (∀ s : AppState,
        (refreshAssets (Except.error ()) s).1.assets = s.assets ∧
        (refreshAssets (Except.error ()) s).1.selectedAsset = s.selectedAsset ∧
        (refreshAssets (Except.error ()) s).1.screen = s.screen ∧
        (refreshAssets (Except.error ()) s).1.endCursor = none ∧
        (refreshAssets (Except.error ()) s).1.hasNextPage = true ∧
        containsAlert (refreshAssets (Except.error ()) s).2 = true) ∧
    (∀ (s : AppState) (a : Asset), s.selectedAsset = some a →
        (onDeleteSelected (Except.error ()) s).1 = s ∧
        containsAlert (onDeleteSelected (Except.error ()) s).2 = true) ∧
    (∀ (s : AppState) (a : Asset), s.selectedAsset = some a →
        ((onShareSelected (Except.error ()) (Except.ok ()) s).1 = s ∧
         containsAlert (onShareSelected (Except.error ()) (Except.ok ()) s).2 = true) ∧
        ((onShareSelected (Except.ok true) (Except.error ()) s).1 = s ∧
         containsAlert (onShareSelected (Except.ok true) (Except.error ()) s).2 = true)) := by
  refine ⟨?_, ?_, ?_, ?_, ?_⟩
  · intro s
    exact ⟨⟨rfl, rfl, rfl, rfl, rfl⟩, rfl⟩
  · intro s h1 h2
    have heq : loadMoreAssets (Except.error ()) s =
        ({ s with isLoadingAssets := false },
         [Effect.getAssets s.endCursor,
          Effect.alert "Error" "Failed to load more photos."]) := by
      unfold loadMoreAssets
      simp [h1, h2]
    constructor
    · rw [heq]
      exact ⟨rfl, rfl, rfl, rfl, rfl⟩
    · rw [heq]
      rfl
  · intro s
    exact ⟨rfl, rfl, rfl, rfl, rfl, rfl⟩
  · intro s a hsel
    unfold onDeleteSelected
    rw [hsel]
    exact ⟨rfl, rfl⟩
  · intro s a hsel
    unfold onShareSelected
    rw [hsel]
    exact ⟨⟨rfl, rfl⟩, ⟨rfl, rfl⟩⟩

/-- Witness for the amended C6 at concrete states: a failing loadMore
from the loaded gallery state and a failing delete from the viewer
state. -/
theorem deviceApi_failure_policy_w :
    (coreUnchanged afterInitial (loadMoreAssets (Except.error ()) afterInitial).1 ∧
     containsAlert (loadMoreAssets (Except.error ()) afterInitial).2 = true) ∧
    ((onDeleteSelected (Except.error ()) viewer3).1 = viewer3 ∧
     containsAlert (onDeleteSelected (Except.error ()) viewer3).2 = true) :=
  ⟨deviceApi_failure_policy.2.1 afterInitial rfl rfl,
   deviceApi_failure_policy.2.2.2.1 viewer3 (mkAsset "3") rfl⟩

/-- The page held by a slow request that started before a refresh. -/
def stalePage : PageResult :=
  { assets := [mkAsset "old"]
    endCursor := some "stale-cursor"
    hasNextPage := true }

/-- The page returned by the loadInitialAssets call that the refresh
itself issued. -/
def freshPage : PageResult :=
  { assets := [mkAsset "new"]
    endCursor := some "fresh-cursor"
    hasNextPage := false }

/-- The interleaving of C1 traced through the handler code: a
loadInitialAssets request R1 starts (line 46 and the getAssetsAsync
call of line 49); before R1 resolves, refreshAssets runs lines 85-86
and starts its own loadInitialAssets request R2; R2 resolves and its
continuation (lines 54-56 and 60) applies freshPage; finally the
outstanding R1 resolves and the same continuation applies stalePage
over the refreshed state.  No generation token or staleness check
exists anywhere in App.tsx. -/
def staleRaceFinal : AppState :=
  applyLoadInitialResponse stalePage
    (applyLoadInitialResponse freshPage
      (beginLoading (resetPagination (beginLoading initialState))))

/-- C1: contrary to the claim, the late response of the pre-refresh
request overwrites the state the refresh produced: the final state
carries the stale page and stale cursor, not the fresh ones. -/
theorem stale_response_overwrites_refresh :
    staleRaceFinal.assets = stalePage.assets ∧
    staleRaceFinal.endCursor = stalePage.endCursor ∧
    staleRaceFinal.hasNextPage = stalePage.hasNextPage ∧
    staleRaceFinal.assets ≠ freshPage.assets := by
  decide

lemma share_state_id (avail : Except Unit Bool) (shareResp : Except Unit Unit)
    (s : AppState) : (onShareSelected avail shareResp s).1 = s := by
  unfold onShareSelected
  rcases hsel : s.selectedAsset with _ | a
  · rfl
  · rcases avail with _ | b
    · rfl
    · rcases b with _ | _
      · rfl
      · rcases shareResp with _ | _ <;> rfl

/-- C7: every state reachable from the initial hook values by any
sequence of events satisfies the navigation invariant: when the screen
is the viewer, the selection is non-null.  The only event that sets the
viewer screen, onSelectAsset, stores the selection in the same
synchronous handler, and every event that clears the selection also
leaves the viewer screen. -/
theorem viewer_has_selection :
    ∀ s : AppState, Reachable s →
      s.screen = ScreenName.viewer → s.selectedAsset ≠ none := by
  intro s hreach
  induction hreach with
  | init =>
      intro h
      simp [initialState] at h
  | next s a hs ih =>
      cases a with
      | loadInitial resp => cases resp with
          | ok r => exact ih
          | error e => exact ih
      | loadMore resp =>
          by_cases hc : (!s.hasNextPage || s.isLoadingAssets) = true
          · simp only [step, loadMoreAssets, if_pos hc]
            exact ih
          · simp only [step, loadMoreAssets, if_neg hc]
            cases resp with
            | ok r => exact ih
            | error e => exact ih
      | refresh resp => cases resp with
          | ok r => exact ih
          | error e => exact ih
      | openCam w g r =>
          cases w with
          | true =>
              exact ih
          | false =>
              cases g with
              | true =>
                  intro h
                  simp [step, openCamera] at h
              | false =>
                  cases r with
                  | true =>
                      intro h
                      simp [step, openCamera] at h
                  | false =>
                      exact ih
      | select a0 =>
          intro h
          simp [step, onSelectAsset]
      | share avail shareResp =>
          simp only [step]
          rw [share_state_id avail shareResp s]
          exact ih
      | deleteSel resp =>
          rcases hsel : s.selectedAsset with _ | a0
          · simp only [step, onDeleteSelected, hsel]
            intro h
            exact absurd hsel (ih h)
          · cases resp with
            | ok u =>
                intro h
                simp only [step, onDeleteSelected, hsel] at h
                exact ScreenName.noConfusion h
            | error e =>
                simp only [step, onDeleteSelected, hsel]
                intro _
                simp
      | back =>
          intro h
          simp [step, viewerBack] at h
      | closeCam =>
          intro h
          simp [step, cameraClose] at h
      | saved resp =>
          intro h
          simp [step, shotSaved] at h

/-- Witness for C7 at a concrete reachable viewer state: select the
asset with id 1 from the initial state. -/
theorem viewer_has_selection_w :
    (step (Event.select (mkAsset "1")) initialState).1.selectedAsset ≠ none :=
  viewer_has_selection _
    (Reachable.next initialState (Event.select (mkAsset "1")) Reachable.init) rfl

/-- C8 counterexample: on web with camera permission not granted,
openCamera returns at line 97-100 before any permission handling, so no
permission request is issued even though permission is not granted;
the claim quantifies over every attempt, including web. -/
theorem openCamera_web_no_permission_request :
    openCamera true false false initialState =
      (initialState,
       [Effect.alert "Not supported" "Camera is not supported on web in this demo."]) ∧
    Effect.requestCameraPermission ∉ (openCamera true false false initialState).2 := by
  decide

/-- C8 amended: on non-web platforms the Gallery to Camera transition
is gated by the permission check: when permission is not granted it is
requested; a denied request refuses the transition, notifies the user
and leaves the state (hence the Gallery screen) unchanged; a granted
permission or granted request proceeds to the camera screen.  On web
the attempt is refused before any permission check. -/
theorem camera_permission_gate :
    ∀ (s : AppState) (reqGranted : Bool),
      openCamera false false false s =
        (s, [Effect.requestCameraPermission,
             Effect.alert "Permission required" "Camera access is needed to take photos."]) ∧
      (openCamera false false true s).1 = { s with screen := ScreenName.camera } ∧
      (openCamera false true reqGranted s).1 = { s with screen := ScreenName.camera } :=
  fun _ _ => ⟨rfl, rfl, rfl⟩

/-- C9: with a null selection both share and delete return immediately,
performing no platform call, raising no alert and changing no state. -/
theorem null_selection_guard :
    ∀ s : AppState, s.selectedAsset = none →
      (∀ (avail : Except Unit Bool) (shareResp : Except Unit Unit),
          onShareSelected avail shareResp s = (s, [])) ∧
      (∀ delResp : Except Unit Unit, onDeleteSelected delResp s = (s, [])) := by
  intro s h
  constructor
  · intro avail shareResp
    unfold onShareSelected
    rw [h]
  · intro delResp
    unfold onDeleteSelected
    rw [h]

/-- Witness for C9 at the initial state, whose selection is null. -/
theorem null_selection_guard_w :
    onShareSelected (Except.ok true) (Except.ok ()) initialState =
      (initialState, []) ∧
    onDeleteSelected (Except.ok ()) initialState = (initialState, []) :=
  ⟨(null_selection_guard initialState rfl).1 _ _,
   (null_selection_guard initialState rfl).2 _⟩

/-- C10: on web, openCamera raises the Not supported alert and returns
with the state unchanged, for every camera-permission status, and
issues no permission request or other effect beforehand. -/
theorem openCamera_web_refused :
    ∀ (granted reqGranted : Bool) (s : AppState),
      openCamera true granted reqGranted s =
        (s, [Effect.alert "Not supported" "Camera is not supported on web in this demo."]) :=
  fun _ _ _ => rfl
